import Mathlib

/-
  Shallow embedding of the bytecode execution engine in src/main.py
  (classes Function, Frame, VirtualMachine).

  Conventions:
  * Python dicts keyed by identifiers are association lists (first match wins
    on lookup, in-place overwrite on store), `Dict` below.
  * The operand stack is a `List Value` whose LAST element is the top of the
    stack, matching the Python list used with append/pop/[-n:].
  * Host (CPython) exceptions raised by primitives the engine calls are
    modelled by `PyErr` values (an exception kind plus a message string);
    message texts are abbreviated but the exception classes follow CPython.
  * The engine's recursion through run_frame / Function.__call__ is modelled
    with an explicit fuel parameter; exhausting fuel yields a distinguished
    `fuelOut` outcome that is never confused with an exception.
-/

namespace PyVM

/-- Code objects, generic in the type of constants (instantiated with `Value`
below).  Mirrors the fields of a CPython code object used by src/main.py:
co_name, co_argcount, co_varnames, co_names, co_consts, co_cellvars,
co_freevars, co_code. -/
structure CodeG (α : Type) where
  co_name : String
  co_argcount : Nat
  co_varnames : List String
  co_names : List String
  co_consts : List α
  co_cellvars : List String
  co_freevars : List String
  co_code : List Nat
  deriving Repr

/-- Function values, generic in the value type.  Mirrors class Function:
func_name (after the `name or code_obj.co_name` defaulting), func_code,
func_defaults (tupled), func_closure (dict freevar-name -> supplied cell
entry), func_globals (captured from the defining frame at definition time).
The unused func_locals / func_dict / _func host fields are not modelled. -/
structure FuncG (α : Type) where
  func_name : α
  func_code : CodeG α
  func_defaults : List α
  func_closure : List (String × α)
  func_globals : List (String × α)

/-- Dynamic values.  `vmodule` models a host module object (an object with a
`__dict__`), used for the `builtins` module reference.  `viter` models a host
iterator object by its remaining elements (advancing the iterator in place
replaces the remaining-element list). -/
inductive Value : Type where
  | vint (i : Int)
  | vbool (b : Bool)
  | vstr (s : String)
  | vnone
  | vtuple (xs : List Value)
  | vlist (xs : List Value)
  | viter (rest : List Value)
  | vmodule (d : List (String × Value))
  | vcode (c : CodeG Value)
  | vfunc (f : FuncG Value)

abbrev Code := CodeG Value
abbrev Func := FuncG Value
abbrev Dict := List (String × Value)

/-- Host exception classes that the engine's primitives can raise.  The
spec's taxonomy maps onto these: UndefinedName = nameError, UnboundLocal =
unboundLocalError, CallError = typeError from argument binding,
OperatorError = typeError from an operator primitive, UnsupportedOpcode =
virtualMachineError. -/
inductive ExcKind : Type where
  | nameError
  | unboundLocalError
  | typeError
  | valueError
  | keyError
  | indexError
  | attributeError
  | stopIteration
  | virtualMachineError
  deriving DecidableEq, Repr

/-- A raised host exception: class plus message. -/
abbrev PyErr := ExcKind × String

/-- What the dispatcher records in self.last_exception:
`sys.exc_info()[:2] + (None,)` — the exception class, the exception value
(its message), and a traceback slot that the code always fills with None. -/
structure Exc where
  kind : ExcKind
  msg : String
  traceback : Option (List (String × Nat))

/-! ### Dictionary (Python dict) primitives -/

/-- `d[k]` lookup: first matching key. -/
def dlookup (d : Dict) (k : String) : Option Value :=
  match d with
  | [] => none
  | (k1, v) :: rest => if k1 = k then some v else dlookup rest k

/-- `d[k] = v`: overwrite in place if the key exists, else append. -/
def dset (d : Dict) (k : String) (v : Value) : Dict :=
  match d with
  | [] => [(k, v)]
  | (k1, v1) :: rest => if k1 = k then (k, v) :: rest else (k1, v1) :: dset rest k v

/-- `k in d`. -/
def dmem (d : Dict) (k : String) : Bool := (dlookup d k).isSome

/-- `d.update(e)`: every key of `e` written into `d`. -/
def dupdate (d e : Dict) : Dict := e.foldl (fun a kv => dset a kv.1 kv.2) d

/-- `d.pop(k)` with no default: the removed value and the remaining dict, or
KeyError when the key is absent. -/
def dpop (d : Dict) (k : String) : Except PyErr (Value × Dict) :=
  match d with
  | [] => .error (.keyError, k)
  | (k1, v) :: rest =>
      if k1 = k then .ok (v, rest)
      else do
        let (w, rest2) ← dpop rest k
        .ok (w, (k1, v) :: rest2)

/-! ### Operand-stack primitives (source: VirtualMachine.push / pop / top /
popn).  The top of the stack is the LAST list element. -/

/-- `self.push(*vals)` = `self.frame.stack.extend(vals)`. -/
def stackPush (stack vals : List Value) : List Value := stack ++ vals

/-- `self.pop()` = `self.frame.stack.pop()`: IndexError on an empty list. -/
def stackPop (stack : List Value) : Except PyErr (Value × List Value) :=
  match stack.getLast? with
  | none => .error (.indexError, "pop from empty list")
  | some v => .ok (v, stack.dropLast)

/-- `self.top()` = `self.frame.stack[-1]`: IndexError on an empty list. -/
def stackTop (stack : List Value) : Except PyErr Value :=
  match stack.getLast? with
  | none => .error (.indexError, "list index out of range")
  | some v => .ok v

/-- `self.popn(n)` (source lines 448-454): for n = 0 it returns [] and leaves
the stack alone; otherwise `ret = stack[-n:]; stack[-n:] = []` — Python slice
semantics, so when fewer than n values are on the stack it silently returns
just those (no underflow check).  Result: (returned values, remaining stack).
All call sites in the source pass a non-negative count. -/
def stackPopn (stack : List Value) (n : Nat) : List Value × List Value :=
  if n = 0 then ([], stack)
  else (stack.drop (stack.length - n), stack.take (stack.length - n))

/-! ### Truthiness and iteration primitives of the host -/

/-- Python truthiness of the modelled values. -/
def pyTruthy : Value → Bool
  | .vint i => i ≠ 0
  | .vbool b => b
  | .vstr s => s ≠ ""
  | .vnone => false
  | .vtuple xs => !xs.isEmpty
  | .vlist xs => !xs.isEmpty
  | .viter _ => true
  | .vmodule _ => true
  | .vcode _ => true
  | .vfunc _ => true

/-- Host `iter(v)`: an iterator is its own iterator; lists and tuples give a
fresh iterator over their elements; other modelled values are not iterable
(TypeError). -/
def pyIter : Value → Except PyErr Value
  | .viter rest => .ok (.viter rest)
  | .vlist xs => .ok (.viter xs)
  | .vtuple xs => .ok (.viter xs)
  | _ => .error (.typeError, "object is not iterable")

/-- Host `tuple(v)` / iteration into a list of elements, for the value shapes
the embedded programs use (lists and tuples). -/
def pyToList : Value → Except PyErr (List Value)
  | .vlist xs => .ok xs
  | .vtuple xs => .ok xs
  | _ => .error (.typeError, "object is not iterable")

/-- Python `s.startswith(p)`, on the character lists (kernel-reducible, in
contrast to the byte-position-based library operation). -/
def strHasPre (p s : String) : Bool := p.data.isPrefixOf s.data

/-- Python `s[n:]`, on the character lists. -/
def strDrop (s : String) (n : Nat) : String := ⟨s.data.drop n⟩

/-! ### Frames and the engine state -/

/-- One activation record (class Frame).  `builtin_names` is the resolved
builtin mapping (Frame.__init__ lines 53-58); `cells` the cell bindings
(lines 60-66); `last_instruction` the program counter into co_code.  The
prev_frame link is not stored: its only use in the source is to hand the
builtin mapping down at construction time, which `mkFrame` below does
directly. -/
structure Frame where
  code_obj : Code
  f_globals : Dict
  f_locals : Dict
  builtin_names : Dict
  cells : Dict
  last_instruction : Nat
  stack : List Value

/-- The engine (class VirtualMachine): call stack of frames (top = last
element; source appends/pops at the end), terminal return-value register and
last-fault slot.  `self.frame` is derived as `frames.getLast?`. -/
structure VM where
  frames : List Frame
  return_value : Value
  last_exception : Option Exc

/-- The active frame, `self.frame`. -/
def VM.frame (vm : VM) : Option Frame := vm.frames.getLast?

/-- Replace the active (top) frame after a handler mutated it. -/
def setTop (vm : VM) (f : Frame) : VM :=
  { vm with frames := vm.frames.dropLast ++ [f] }

/-- Source lines 406-408: `push_frame` appends the frame to the call stack
and makes it active — unconditionally: there is no depth check anywhere. -/
def push_frame (vm : VM) (f : Frame) : VM :=
  { vm with frames := vm.frames ++ [f] }

/-- Source lines 410-415: `pop_frame` removes the top frame; `self.frame`
becomes the new last frame (or None). -/
def pop_frame (vm : VM) : VM :=
  { vm with frames := vm.frames.dropLast }

/-! ### Frame construction (Frame.__init__ and VirtualMachine.make_frame) -/

/-- Frame.__init__ (source lines 46-68).  With a previous frame the builtin
mapping is inherited from it; at the root it is read from
`local_names['__builtins__']` (KeyError when absent) and, that object having
a `__dict__` (the builtins module), replaced by that dict.  Then every
cell-variable name and every free-variable name of the code object is bound
in `cells` by reading `local_names[name]` — a KeyError when the name is not
in the locals mapping.  Only a module object is modelled as the
`__builtins__` value; the embedded programs never seed anything else. -/
def mkFrame (code : Code) (global_names local_names : Dict)
    (prev : Option Frame) : Except PyErr Frame := do
  let builtins ←
    match prev with
    | some p => pure p.builtin_names
    | none =>
        match dlookup local_names "__builtins__" with
        | none => Except.error (.keyError, "__builtins__")
        | some (.vmodule d) => pure d
        | some _ => Except.error (.typeError, "builtins value not modelled")
  let cells ← code.co_cellvars.foldlM
    (fun (acc : Dict) nm =>
      match dlookup local_names nm with
      | none => Except.error (.keyError, nm)
      | some v => pure (dset acc nm v)) []
  let cells ← code.co_freevars.foldlM
    (fun (acc : Dict) nm =>
      match dlookup local_names nm with
      | none => Except.error (.keyError, nm)
      | some v => pure (dset acc nm v)) cells
  pure { code_obj := code, f_globals := global_names, f_locals := local_names,
         builtin_names := builtins, cells := cells,
         last_instruction := 0, stack := [] }

/-- The mapping VirtualMachine.make_frame seeds when no global scope is
supplied and the call stack is empty (source lines 394-400).  The host
`builtins` module is modelled as a module value over an abstract dict. -/
def builtinsDict : Dict := []

def defaultGlobals : Dict :=
  [("__builtins__", Value.vmodule builtinsDict),
   ("__name__", Value.vstr "__main__"),
   ("__doc__", Value.vnone),
   ("__package__", Value.vnone)]

/-- VirtualMachine.make_frame (source lines 384-404).  Branches exactly as
the source: explicit global scope (locals defaulting to the same mapping);
otherwise, with a non-empty call stack, the source reads
`self.frame.global_names` — an attribute class Frame does not define, hence
an AttributeError; otherwise the default minimal scope is seeded and used as
both globals and locals.  call_args and closure are then merged into the
locals (closure second, overwriting), and the Frame is built with
prev_frame = self.frame. -/
def make_frame (vm : VM) (code : Code) (closure : Dict := [])
    (call_args : Dict := []) (global_names : Option Dict := none)
    (local_names : Option Dict := none) : Except PyErr Frame := do
  let (g, l) ←
    match global_names with
    | some g =>
        match local_names with
        | none => pure (g, g)
        | some l => pure (g, l)
    | none =>
        if !vm.frames.isEmpty then
          Except.error (.attributeError, "Frame object has no attribute global_names")
        else
          pure (defaultGlobals, defaultGlobals)
  let l := dupdate l call_args
  let l := dupdate l closure
  mkFrame code g l vm.frame

/-! ### Binary / in-place operator primitives -/

/-- The key set of the BINARY_OPERATORS table (source lines 234-248); a
BINARY_ opcode whose suffix is not a key raises KeyError at the table
lookup. -/
def binaryOpKeys : List String :=
  ["POWER", "MULTIPLY", "FLOOR_DIVIDE", "TRUE_DIVIDE", "MODULO", "ADD",
   "SUBTRACT", "SUBSCR", "LSHIFT", "RSHIFT", "AND", "XOR", "OR"]

/-- The host operator primitives the table maps to, modelled on the value
shapes the verified programs use: integer arithmetic, string/list/tuple
concatenation for ADD, and list/tuple subscription.  Operand combinations
outside this fragment answer TypeError, which is also what CPython raises
for mismatched operand kinds (the spec's OperatorError); no theorem below
evaluates a primitive outside the modelled fragment. -/
def applyBinary (op : String) (x y : Value) : Except PyErr Value :=
  match op, x, y with
  | "ADD", .vint a, .vint b => .ok (.vint (a + b))
  | "ADD", .vstr a, .vstr b => .ok (.vstr (a ++ b))
  | "ADD", .vlist a, .vlist b => .ok (.vlist (a ++ b))
  | "ADD", .vtuple a, .vtuple b => .ok (.vtuple (a ++ b))
  | "SUBTRACT", .vint a, .vint b => .ok (.vint (a - b))
  | "MULTIPLY", .vint a, .vint b => .ok (.vint (a * b))
  | "MODULO", .vint a, .vint b =>
      if b = 0 then .error (.valueError, "integer division or modulo by zero")
      else .ok (.vint (a % b))
  | "SUBSCR", .vlist xs, .vint i =>
      if h : i.toNat < xs.length ∧ 0 ≤ i then .ok (xs.get ⟨i.toNat, h.1⟩)
      else .error (.indexError, "list index out of range")
  | "SUBSCR", .vtuple xs, .vint i =>
      if h : i.toNat < xs.length ∧ 0 ≤ i then .ok (xs.get ⟨i.toNat, h.1⟩)
      else .error (.indexError, "tuple index out of range")
  | _, _, _ => .error (.typeError, "unsupported operand kinds")

/-- VirtualMachine.binaryOperator (source lines 250-252):
`x, y = self.popn(2)` — with fewer than two values on the stack, popn's
slice silently returns what is there and the tuple unpacking raises
ValueError; only then is the operator table consulted (KeyError on an
unknown suffix) and the primitive applied. -/
def binaryOperator (op : String) (f : Frame) : Except PyErr Frame := do
  let (ret, rest) := stackPopn f.stack 2
  match ret with
  | [x, y] =>
      if binaryOpKeys.contains op then do
        let v ← applyBinary op x y
        pure { f with stack := stackPush rest [v] }
      else .error (.keyError, op)
  | _ => .error (.valueError, "not enough values to unpack")

/-- The operator names VirtualMachine.inplaceOperator (source lines 272-302)
recognises; any other suffix reaches the else branch raising
VirtualMachineError. -/
def inplaceOpKeys : List String :=
  ["POWER", "MULTIPLY", "MATRIX_MULTIPLY", "FLOOR_DIVIDE", "TRUE_DIVIDE",
   "MODULO", "ADD", "SUBTRACT", "LSHIFT", "RSHIFT", "AND", "XOR", "OR"]

/-- VirtualMachine.inplaceOperator: pops two, performs the augmented
assignment and pushes the result.  On the immutable values modelled here the
augmented operators coincide with the binary ones (CPython falls back to
`x = x op y`); an unknown suffix raises VirtualMachineError as in the
source's else branch. -/
def inplaceOperator (op : String) (f : Frame) : Except PyErr Frame := do
  let (ret, rest) := stackPopn f.stack 2
  match ret with
  | [x, y] =>
      if inplaceOpKeys.contains op then do
        let v ← applyBinary op x y
        pure { f with stack := stackPush rest [v] }
      else .error (.virtualMachineError, "Unknown in-place operator")
  | _ => .error (.valueError, "not enough values to unpack")

/-! ### Argument binding and Function construction -/

/-- Host `inspect.getcallargs` as used by Function.__call__ for a plain
function (positional parameters, optional trailing defaults, no *args /
**kwargs / keyword-only parameters — the only shapes the engine's Function
produces): bind positionals in order (TypeError when more positionals than
parameters), then keywords (TypeError on an unknown name or a name already
bound), then fill remaining parameters from the trailing defaults (TypeError
when a required parameter stays unfilled).  Returns the locals dict in
parameter order. -/
def getcallargs (params : List String) (defaults : List Value)
    (args : List Value) (kwargs : List (String × Value)) :
    Except PyErr Dict := do
  if params.length < args.length then
    .error (.typeError, "too many positional arguments")
  else
    let bound : Dict := (params.zip args).map (fun p => (p.1, p.2))
    let bound ← kwargs.foldlM
      (fun (acc : Dict) kv =>
        if !params.contains kv.1 then
          Except.error (.typeError, "got an unexpected keyword argument")
        else if dmem acc kv.1 then
          Except.error (.typeError, "got multiple values for argument")
        else pure (dset acc kv.1 kv.2)) bound
    -- parameters covered by the trailing defaults start here
    let firstDefault := params.length - defaults.length
    let rec fill (i : Nat) (ps : List String) (acc : Dict) :
        Except PyErr Dict :=
      match ps with
      | [] => pure acc
      | p :: rest =>
          if dmem acc p then fill (i + 1) rest acc
          else if h : firstDefault ≤ i ∧ i - firstDefault < defaults.length then
            fill (i + 1) rest (dset acc p (defaults.get ⟨i - firstDefault, h.2⟩))
          else Except.error (.typeError, "missing a required argument")
    fill 0 params bound

/-- Function.__init__ (source lines 17-35).  func_name is
`name or code_obj.co_name`; defaults are snapshotted with `tuple(defaults)`;
with a truthy closure the func_closure dict maps each free-variable name, in
declaration order, to the supplied cell entry (`closure[i]` — IndexError when
the closure tuple is shorter).  The host `types.FunctionType` call then
validates the closure: when a closure keyword is passed its length must
equal the number of free variables, and a code object with free variables
cannot be built without a closure (TypeError either way). -/
def Func.init (name : Value) (code : Code) (defaults : Value)
    (closure : Option Value) (globals : Dict) : Except PyErr Func := do
  let defaultsList ← pyToList defaults
  let fname := if pyTruthy name then name else Value.vstr code.co_name
  let truthyClosure :=
    match closure with
    | some cv => pyTruthy cv
    | none => false
  let cloDict ←
    if truthyClosure then do
      let items ← pyToList (closure.getD Value.vnone)
      let rec build (i : Nat) (fvs : List String) (acc : Dict) :
          Except PyErr Dict :=
        match fvs with
        | [] => pure acc
        | nm :: rest =>
            match items.get? i with
            | none => Except.error (.indexError, "tuple index out of range")
            | some c => build (i + 1) rest (dset acc nm c)
      build 0 code.co_freevars []
    else pure []
  -- types.FunctionType validation
  if truthyClosure then do
    let items ← pyToList (closure.getD Value.vnone)
    if items.length = code.co_freevars.length then
      pure { func_name := fname, func_code := code,
             func_defaults := defaultsList, func_closure := cloDict,
             func_globals := globals }
    else .error (.typeError, "requires closure of matching length")
  else
    if code.co_freevars.isEmpty then
      pure { func_name := fname, func_code := code,
             func_defaults := defaultsList, func_closure := cloDict,
             func_globals := globals }
    else .error (.typeError, "arg 5 closure must be a tuple")

/-! ### Frame-local instruction handlers (methods inst_* of VirtualMachine
that only touch the active frame).  Each returns the mutated frame or the
host exception the method raises; mutations and raises never interleave in
these handlers (each raises, if at all, before touching the frame). -/

def inst_LOAD_CONST (f : Frame) (v : Value) : Frame :=
  { f with stack := stackPush f.stack [v] }

def inst_POP_TOP (f : Frame) : Except PyErr Frame := do
  let (_, s) ← stackPop f.stack
  pure { f with stack := s }

def inst_DUP_TOP (f : Frame) : Except PyErr Frame := do
  let v ← stackTop f.stack
  pure { f with stack := stackPush f.stack [v] }

/-- inst_LOAD_NAME (source lines 108-118): generic name load, resolved
against the active frame's locals, then globals, then builtins, in that
order; a name in none of the three raises NameError (the spec's
UndefinedName). -/
def inst_LOAD_NAME (f : Frame) (name : String) : Except PyErr Frame :=
  match dlookup f.f_locals name with
  | some v => .ok { f with stack := stackPush f.stack [v] }
  | none =>
      match dlookup f.f_globals name with
      | some v => .ok { f with stack := stackPush f.stack [v] }
      | none =>
          match dlookup f.builtin_names name with
          | some v => .ok { f with stack := stackPush f.stack [v] }
          | none => .error (.nameError, "name " ++ name ++ " is not defined")

def inst_STORE_NAME (f : Frame) (name : String) : Except PyErr Frame := do
  let (v, s) ← stackPop f.stack
  pure { f with stack := s, f_locals := dset f.f_locals name v }

/-- inst_DELETE_NAME: `self.frame.f_locals.pop(name)` — KeyError when the
name is not a local. -/
def inst_DELETE_NAME (f : Frame) (name : String) : Except PyErr Frame := do
  let (_, l) ← dpop f.f_locals name
  pure { f with f_locals := l }

/-- inst_LOAD_FAST (source lines 126-133): fast locals only; the dot-name
mangling of the source is reproduced; an unbound name raises
UnboundLocalError, never falling back to globals or builtins. -/
def inst_LOAD_FAST (f : Frame) (name : String) : Except PyErr Frame :=
  let name := if strHasPre "." name then "implicit" ++ strDrop name 1 else name
  match dlookup f.f_locals name with
  | some v => .ok { f with stack := stackPush f.stack [v] }
  | none => .error (.unboundLocalError,
      "local variable " ++ name ++ " referenced before assignment")

def inst_STORE_FAST (f : Frame) (name : String) : Except PyErr Frame := do
  let (v, s) ← stackPop f.stack
  pure { f with stack := s, f_locals := dset f.f_locals name v }

def inst_LOAD_GLOBAL (f : Frame) (name : String) : Except PyErr Frame :=
  match dlookup f.f_globals name with
  | some v => .ok { f with stack := stackPush f.stack [v] }
  | none =>
      match dlookup f.builtin_names name with
      | some v => .ok { f with stack := stackPush f.stack [v] }
      | none => .error (.nameError, "global name " ++ name ++ " is not defined")

def inst_STORE_GLOBAL (f : Frame) (name : String) : Except PyErr Frame := do
  let (v, s) ← stackPop f.stack
  pure { f with stack := s, f_globals := dset f.f_globals name v }

def inst_DELETE_GLOBAL (f : Frame) (name : String) : Except PyErr Frame := do
  let (_, g) ← dpop f.f_globals name
  pure { f with f_globals := g }

def inst_GET_ITER (f : Frame) : Except PyErr Frame := do
  let (v, s) ← stackPop f.stack
  let it ← pyIter v
  pure { f with stack := stackPush s [it] }

/-- inst_FOR_ITER (source lines 141-147): `TOS = iter(self.top())` — when the
top of stack is already an iterator this is the same object, so `next(TOS)`
advances it in place and the advanced element is pushed; on exhaustion
(StopIteration) the iterator is popped and the program counter set to
`jump + 1`.  When the top is a list or tuple, `iter` builds a fresh iterator
whose advancement is lost, so the element pushed is always the first — also
reproduced here, although the verified programs always run GET_ITER first. -/
def inst_FOR_ITER (f : Frame) (jump : Nat) : Except PyErr Frame := do
  let t ← stackTop f.stack
  match t with
  | .viter (x :: rest) =>
      -- next succeeds; the iterator object on the stack has advanced
      pure { f with stack := stackPush (f.stack.dropLast ++ [.viter rest]) [x] }
  | .viter [] => do
      let (_, s) ← stackPop f.stack
      pure { f with stack := s, last_instruction := jump + 1 }
  | .vlist (x :: _) => pure { f with stack := stackPush f.stack [x] }
  | .vtuple (x :: _) => pure { f with stack := stackPush f.stack [x] }
  | .vlist [] => do
      let (_, s) ← stackPop f.stack
      pure { f with stack := s, last_instruction := jump + 1 }
  | .vtuple [] => do
      let (_, s) ← stackPop f.stack
      pure { f with stack := s, last_instruction := jump + 1 }
  | _ => .error (.typeError, "object is not iterable")

def jump (f : Frame) (target : Nat) : Frame :=
  { f with last_instruction := target }

def inst_JUMP_FORWARD (f : Frame) (target : Nat) : Frame := jump f target

def inst_JUMP_ABSOLUTE (f : Frame) (target : Nat) : Frame := jump f target

def inst_POP_JUMP_IF_TRUE (f : Frame) (target : Nat) : Except PyErr Frame := do
  let (v, s) ← stackPop f.stack
  if pyTruthy v then pure { f with stack := s, last_instruction := target }
  else pure { f with stack := s }

def inst_POP_JUMP_IF_FALSE (f : Frame) (target : Nat) : Except PyErr Frame := do
  let (v, s) ← stackPop f.stack
  if pyTruthy v then pure { f with stack := s }
  else pure { f with stack := s, last_instruction := target }

/-- inst_LOAD_CLOSURE (source lines 355-362): index into cellvars then
freevars, then push `self.frame.f_locals[name]` (KeyError when absent) —
note the source pushes the raw local value, not a Cell. -/
def inst_LOAD_CLOSURE (f : Frame) (i : Nat) : Except PyErr Frame := do
  let nCell := f.code_obj.co_cellvars.length
  let name ←
    if h : i < nCell then pure (f.code_obj.co_cellvars.get ⟨i, h⟩)
    else
      match f.code_obj.co_freevars.get? (i - nCell) with
      | some nm => pure nm
      | none => Except.error (.indexError, "tuple index out of range")
  match dlookup f.f_locals name with
  | some v => pure { f with stack := stackPush f.stack [v] }
  | none => .error (.keyError, name)

/-- inst_LOAD_DEREF (source lines 364-366): the name is taken from
co_freevars[i] — even though CPython numbers cellvars before freevars, so a
LOAD_DEREF addressing one of the frame's own cell variables reads past the
wrong table (IndexError when co_freevars is shorter) — and the cell itself
(`self.frame.cells[name]`, KeyError when absent) is pushed, not its
content. -/
def inst_LOAD_DEREF (f : Frame) (i : Nat) : Except PyErr Frame := do
  match f.code_obj.co_freevars.get? i with
  | none => .error (.indexError, "tuple index out of range")
  | some name =>
      match dlookup f.cells name with
      | some c => pure { f with stack := stackPush f.stack [c] }
      | none => .error (.keyError, name)

def inst_UNPACK_SEQUENCE (f : Frame) : Except PyErr Frame := do
  let (v, s) ← stackPop f.stack
  let xs ← pyToList v
  pure { f with stack := stackPush s xs.reverse }

def inst_BUILD_TUPLE (f : Frame) (count : Nat) : Frame :=
  let (args, rest) := stackPopn f.stack count
  { f with stack := stackPush rest [.vtuple args] }

def inst_BUILD_LIST (f : Frame) (count : Nat) : Frame :=
  let (args, rest) := stackPopn f.stack count
  { f with stack := stackPush rest [.vlist args] }

/-! ### Dispatch results and the executor -/

/-- The truthy control signals a dispatch cycle can yield: the handler
returned "return", the dispatcher recorded an exception, or opcode 0
produced "end_of_file". -/
inductive Sig : Type where
  | ret
  | exc
  | eof
  deriving DecidableEq, Repr

/-- Result of one dispatch cycle (or of the whole loop): continue, break
with a signal, an exception escaping run_frame raw because it was raised by
parse_inst_and_args OUTSIDE the dispatcher's try/except, or fuel ran out. -/
inductive CycRes : Type where
  | cont
  | brk (s : Sig)
  | raw (e : PyErr)
  | fuelOut
  deriving Repr

/-- Result of running one frame to termination (run_frame or
Function.__call__): a returned value, a host exception propagating to the
caller, or fuel ran out. -/
inductive RunRes : Type where
  | ret (v : Value)
  | raise (e : Exc)
  | fuelOut

/-- Combined output of the executor. -/
inductive Out : Type where
  | run (r : RunRes)
  | cyc (c : CycRes)

/-- The dispatcher's except-clause (source lines 502-504):
`self.last_exception = sys.exc_info()[:2] + (None,)` — the exception class
and message are recorded, the traceback slot is filled with None. -/
def recordExc (vm : VM) (e : PyErr) : VM :=
  { vm with last_exception := some ⟨e.1, e.2, none⟩ }

/-- Lift a frame-local handler outcome to the dispatcher level: success
commits the mutated frame and continues; a raise is caught by the
dispatcher's except-clause. -/
def liftF (vm : VM) (r : Except PyErr Frame) : VM × Out :=
  match r with
  | .ok f => (setTop vm f, .cyc .cont)
  | .error e => (recordExc vm e, .cyc (.brk .exc))

/-- inst_MAKE_FUNCTION (source lines 325-337): pop the display name, then
the code object; with flags = 0x08 additionally pop a closure tuple (and
use empty defaults), with any other non-zero flags pop a defaults tuple
(and no closure), with flags = 0 pop nothing more; then build the Function
(capturing the active frame's globals) and push it.  Pops committed before
a later failure persist, as Python list mutation does. -/
def inst_MAKE_FUNCTION (vm : VM) (t : Frame) (flags : Nat) : VM × Out :=
  match stackPop t.stack with
  | .error e => (recordExc vm e, .cyc (.brk .exc))
  | .ok (nameV, s1) =>
    let t1 := { t with stack := s1 }
    match stackPop t1.stack with
    | .error e => (recordExc (setTop vm t1) e, .cyc (.brk .exc))
    | .ok (codeV, s2) =>
      let t2 := { t1 with stack := s2 }
      let popped :
          Except (Frame × PyErr) (Frame × Option Value × Value) :=
        if flags = 8 then
          match stackPop t2.stack with
          | .error e => .error (t2, e)
          | .ok (clo, s3) => .ok ({ t2 with stack := s3 }, some clo, .vlist [])
        else if flags ≠ 0 then
          match stackPop t2.stack with
          | .error e => .error (t2, e)
          | .ok (defs, s3) => .ok ({ t2 with stack := s3 }, none, defs)
        else .ok (t2, none, .vlist [])
      match popped with
      | .error (t3, e) => (recordExc (setTop vm t3) e, .cyc (.brk .exc))
      | .ok (t3, closure, defaults) =>
        match codeV with
        | .vcode c =>
            match Func.init nameV c defaults closure t3.f_globals with
            | .error e => (recordExc (setTop vm t3) e, .cyc (.brk .exc))
            | .ok fn =>
                (setTop vm { t3 with stack := stackPush t3.stack [.vfunc fn] },
                 .cyc .cont)
        | _ => (recordExc (setTop vm t3)
                  (.typeError, "arg 1 must be a code object"), .cyc (.brk .exc))

/-- The keyword-value pop loop of inst_CALL_FUNCTION_KW
(`for i in kwargs_name[::-1]: kwargs[i] = self.pop()`), iterated here over
the already-reversed name list.  Keys are collected into a dict (so
duplicate names collapse, as in a Python dict); a non-string key would make
the later `func(**kwargs)` call fail, modelled at collection time. -/
def collectKw : Frame → List Value → Dict → Frame × Except PyErr Dict
  | t, [], acc => (t, .ok acc)
  | t, nm :: rest, acc =>
      match nm with
      | .vstr s =>
          match stackPop t.stack with
          | .error e => (t, .error e)
          | .ok (v, st) => collectKw { t with stack := st } rest (dset acc s v)
      | _ => (t, .error (.typeError, "keywords must be strings"))

/-- Finish a nested Function call made from a handler: a returned value is
pushed onto the caller's (now active) frame and execution continues; a
propagated exception enters the caller's dispatcher except-clause; fuel
exhaustion aborts. -/
def finishCall (vmOut : VM × Out) : VM × Out :=
  match vmOut with
  | (vm, .run (.ret rv)) =>
      match vm.frame with
      | some t => (setTop vm { t with stack := stackPush t.stack [rv] }, .cyc .cont)
      | none => (recordExc vm (.attributeError, "no active frame"), .cyc (.brk .exc))
  | (vm, .run (.raise e)) => (recordExc vm (e.kind, e.msg), .cyc (.brk .exc))
  | (vm, .run .fuelOut) => (vm, .cyc .fuelOut)
  | (vm, out) => (vm, out)

/-! ### Instruction decoding (parse_inst_and_args, source lines 457-483) -/

/-- A decoded instruction argument: a constant-pool value, a name, or a
plain number (jump target, argument count, flags). -/
inductive Arg : Type where
  | aval (v : Value)
  | aname (s : String)
  | anum (n : Nat)

/-- dis.HAVE_ARGUMENT for the CPython 3.8 bytecode the engine decodes. -/
def HAVE_ARGUMENT : Nat := 90

/-- dis.hasconst. -/
def hasconst : List Nat := [100]

/-- dis.hasname (the members relevant to the modelled opcodes). -/
def hasname : List Nat := [90, 91, 95, 96, 97, 98, 101, 106, 108, 109, 116, 160]

/-- dis.haslocal. -/
def haslocal : List Nat := [124, 125, 126]

/-- dis.hasjrel. -/
def hasjrel : List Nat := [93, 110, 122]

/-- dis.opname for the opcode numbers appearing in the embedded programs
(CPython 3.8 numbering); opcode 0 prints as `<0>`, which the dispatcher
turns into the end_of_file signal. -/
def opname : Nat → String
  | 0 => "<0>"
  | 1 => "POP_TOP"
  | 4 => "DUP_TOP"
  | 23 => "BINARY_ADD"
  | 24 => "BINARY_SUBTRACT"
  | 25 => "BINARY_SUBSCR"
  | 55 => "INPLACE_ADD"
  | 68 => "GET_ITER"
  | 83 => "RETURN_VALUE"
  | 90 => "STORE_NAME"
  | 91 => "DELETE_NAME"
  | 92 => "UNPACK_SEQUENCE"
  | 93 => "FOR_ITER"
  | 97 => "STORE_GLOBAL"
  | 98 => "DELETE_GLOBAL"
  | 100 => "LOAD_CONST"
  | 101 => "LOAD_NAME"
  | 102 => "BUILD_TUPLE"
  | 103 => "BUILD_LIST"
  | 110 => "JUMP_FORWARD"
  | 113 => "JUMP_ABSOLUTE"
  | 114 => "POP_JUMP_IF_FALSE"
  | 115 => "POP_JUMP_IF_TRUE"
  | 116 => "LOAD_GLOBAL"
  | 124 => "LOAD_FAST"
  | 125 => "STORE_FAST"
  | 131 => "CALL_FUNCTION"
  | 132 => "MAKE_FUNCTION"
  | 135 => "LOAD_CLOSURE"
  | 136 => "LOAD_DEREF"
  | 137 => "STORE_DEREF"
  | 141 => "CALL_FUNCTION_KW"
  | n => "<" ++ toString n ++ ">"

/-- The executor's request kinds, covering the mutually recursive pieces of
the source engine: run_frame (push frame, loop, pop frame, re-raise or
return), the run_frame while-loop, one parse+dispatch cycle, the dispatch
of one decoded instruction, and Function.__call__. -/
inductive Req : Type where
  | runf (f : Frame)
  | loop
  | cycle
  | dis (instName : String) (args : List Arg)
  | call (fn : Func) (args : List Value) (kwargs : List (String × Value))

/-- The engine, as one fuel-indexed function (the source's recursion through
run_frame / handler / Function.__call__ / run_frame, made structural on a
fuel counter; fuel exhaustion models the finiteness of the host's native
call stack and is reported as a distinguished non-exception outcome).

* `.runf f` = run_frame (source lines 417-436): push the frame, loop until a
  truthy signal; on "exception" pop the frame and re-raise the recorded
  condition (with its traceback slot, which is always None); on "return" or
  "end_of_file" pop and yield self.return_value.  An exception raised by
  parse_inst_and_args escapes run_frame raw, bypassing pop_frame.
* `.loop` = the while-loop: repeat cycles while dispatch yields a falsy
  result.
* `.cycle` = parse_inst_and_args (lines 457-483) followed by dispatch: the
  opcode byte at last_instruction, the pc incremented past the opcode, an
  operand byte decoded via the dis tables when opcode >= HAVE_ARGUMENT, the
  pc incremented again, then dispatch.  IndexErrors here happen OUTSIDE the
  dispatcher's try and escape raw.
* `.dis name args` = dispatch (lines 485-506): look up the handler by name;
  without one, INPLACE_/UNARY_/BINARY_ prefixes route to the operator
  helpers, name `<0>` yields end_of_file, anything else raises
  VirtualMachineError("unsupported bytecode type") — all inside a try whose
  except records (kind, message, None) in last_exception and yields the
  "exception" signal.  Handlers of source methods not exercised by any
  embedded program (attribute/import/print/... instructions) are not
  modelled and fall through to the unsupported branch here.
* `.call fn args kwargs` = Function.__call__ (lines 37-42): bind arguments
  via getcallargs, build the new frame via make_frame (explicit globals from
  the Function, explicit empty locals), and run it. -/
def exec : Nat → VM → Req → VM × Out
  | 0, vm, .runf _ => (vm, .run .fuelOut)
  | 0, vm, .call _ _ _ => (vm, .run .fuelOut)
  | 0, vm, _ => (vm, .cyc .fuelOut)
  | n + 1, vm, .runf f =>
    let vm1 := push_frame vm f
    (match exec n vm1 .loop with
     | (vm2, .cyc (.brk .exc)) =>
        let vm3 := pop_frame vm2
        (match vm3.last_exception with
         | some e => (vm3, .run (.raise e))
         | none => (vm3, .run (.raise ⟨.typeError, "NoneType object is not callable", none⟩)))
     | (vm2, .cyc (.brk .ret)) => (pop_frame vm2, .run (.ret vm2.return_value))
     | (vm2, .cyc (.brk .eof)) => (pop_frame vm2, .run (.ret vm2.return_value))
     | (vm2, .cyc (.raw e)) => (vm2, .run (.raise ⟨e.1, e.2, none⟩))
     | (vm2, .cyc .fuelOut) => (vm2, .run .fuelOut)
     | (vm2, .cyc .cont) => (vm2, .run .fuelOut)
     | (vm2, .run r) => (vm2, .run r))
  | n + 1, vm, .loop =>
    (match exec n vm .cycle with
     | (vm1, .cyc .cont) => exec n vm1 .loop
     | (vm1, out) => (vm1, out))
  | n + 1, vm, .cycle =>
    (match vm.frame with
     | none => (vm, .cyc (.raw (.attributeError, "NoneType object has no attribute")))
     | some f =>
       let opoffset := f.last_instruction
       (match f.code_obj.co_code.get? opoffset with
        | none => (vm, .cyc (.raw (.indexError, "index out of range")))
        | some b =>
          let instName := opname b
          let f1 := { f with last_instruction := opoffset + 1 }
          if b ≥ HAVE_ARGUMENT then
            match f1.code_obj.co_code.get? f1.last_instruction with
            | none => (setTop vm f1, .cyc (.raw (.indexError, "index out of range")))
            | some argval =>
              let decoded : Except PyErr Arg :=
                if hasconst.contains b then
                  match f1.code_obj.co_consts.get? argval with
                  | some v => .ok (.aval v)
                  | none => .error (.indexError, "index out of range")
                else if hasname.contains b then
                  match f1.code_obj.co_names.get? argval with
                  | some s => .ok (.aname s)
                  | none => .error (.indexError, "index out of range")
                else if haslocal.contains b then
                  match f1.code_obj.co_varnames.get? argval with
                  | some s => .ok (.aname s)
                  | none => .error (.indexError, "index out of range")
                else if hasjrel.contains b then
                  .ok (.anum (f1.last_instruction + argval))
                else .ok (.anum argval)
              (match decoded with
               | .error e => (setTop vm f1, .cyc (.raw e))
               | .ok a =>
                 let f2 := { f1 with last_instruction := f1.last_instruction + 1 }
                 exec n (setTop vm f2) (.dis instName [a]))
          else
            let f2 := { f1 with last_instruction := f1.last_instruction + 1 }
            exec n (setTop vm f2) (.dis instName [])))
  | n + 1, vm, .dis instName args =>
    (match vm.frame with
     | none => (recordExc vm (.attributeError, "no active frame"), .cyc (.brk .exc))
     | some t =>
       match instName, args with
       | "LOAD_CONST", [.aval v] => (setTop vm (inst_LOAD_CONST t v), .cyc .cont)
       | "POP_TOP", [] => liftF vm (inst_POP_TOP t)
       | "DUP_TOP", [] => liftF vm (inst_DUP_TOP t)
       | "LOAD_NAME", [.aname s] => liftF vm (inst_LOAD_NAME t s)
       | "STORE_NAME", [.aname s] => liftF vm (inst_STORE_NAME t s)
       | "DELETE_NAME", [.aname s] => liftF vm (inst_DELETE_NAME t s)
       | "LOAD_FAST", [.aname s] => liftF vm (inst_LOAD_FAST t s)
       | "STORE_FAST", [.aname s] => liftF vm (inst_STORE_FAST t s)
       | "LOAD_GLOBAL", [.aname s] => liftF vm (inst_LOAD_GLOBAL t s)
       | "STORE_GLOBAL", [.aname s] => liftF vm (inst_STORE_GLOBAL t s)
       | "DELETE_GLOBAL", [.aname s] => liftF vm (inst_DELETE_GLOBAL t s)
       | "GET_ITER", [] => liftF vm (inst_GET_ITER t)
       | "FOR_ITER", [.anum j] => liftF vm (inst_FOR_ITER t j)
       | "JUMP_FORWARD", [.anum j] => (setTop vm (inst_JUMP_FORWARD t j), .cyc .cont)
       | "JUMP_ABSOLUTE", [.anum j] => (setTop vm (inst_JUMP_ABSOLUTE t j), .cyc .cont)
       | "POP_JUMP_IF_TRUE", [.anum j] => liftF vm (inst_POP_JUMP_IF_TRUE t j)
       | "POP_JUMP_IF_FALSE", [.anum j] => liftF vm (inst_POP_JUMP_IF_FALSE t j)
       | "UNPACK_SEQUENCE", [.anum _] => liftF vm (inst_UNPACK_SEQUENCE t)
       | "BUILD_TUPLE", [.anum c] => (setTop vm (inst_BUILD_TUPLE t c), .cyc .cont)
       | "BUILD_LIST", [.anum c] => (setTop vm (inst_BUILD_LIST t c), .cyc .cont)
       | "LOAD_CLOSURE", [.anum i] => liftF vm (inst_LOAD_CLOSURE t i)
       | "LOAD_DEREF", [.anum i] => liftF vm (inst_LOAD_DEREF t i)
       | "MAKE_FUNCTION", [.anum flags] => inst_MAKE_FUNCTION vm t flags
       | "RETURN_VALUE", [] =>
           (match stackPop t.stack with
            | .error e => (recordExc vm e, .cyc (.brk .exc))
            | .ok (v, s) =>
                ({ setTop vm { t with stack := s } with return_value := v },
                 .cyc (.brk .ret)))
       | "CALL_FUNCTION", [.anum _] =>
           -- source lines 339-344: the decoded argument is ignored; three
           -- values are popped (name, arg_func, func) and the call is
           -- func(arg_func, name)
           (match stackPop t.stack with
            | .error e => (recordExc vm e, .cyc (.brk .exc))
            | .ok (nameV, s1) =>
              let t1 := { t with stack := s1 }
              match stackPop t1.stack with
              | .error e => (recordExc (setTop vm t1) e, .cyc (.brk .exc))
              | .ok (argF, s2) =>
                let t2 := { t1 with stack := s2 }
                match stackPop t2.stack with
                | .error e => (recordExc (setTop vm t2) e, .cyc (.brk .exc))
                | .ok (fv, s3) =>
                  let vm3 := setTop vm { t2 with stack := s3 }
                  match fv with
                  | .vfunc fn => finishCall (exec n vm3 (.call fn [argF, nameV] []))
                  | _ => (recordExc vm3 (.typeError, "object is not callable"),
                          .cyc (.brk .exc)))
       | "CALL_FUNCTION_KW", [.anum argc] =>
           -- source lines 346-353
           (match stackPop t.stack with
            | .error e => (recordExc vm e, .cyc (.brk .exc))
            | .ok (kwNames, s1) =>
              let t1 := { t with stack := s1 }
              match pyToList kwNames with
              | .error e => (recordExc (setTop vm t1) e, .cyc (.brk .exc))
              | .ok names =>
                let (t2, kwE) := collectKw t1 names.reverse []
                match kwE with
                | .error e => (recordExc (setTop vm t2) e, .cyc (.brk .exc))
                | .ok kwargs =>
                  -- argc - len(kwargs); every call site in the embedded
                  -- programs has argc >= len(kwargs)
                  let (posargs, s2) := stackPopn t2.stack (argc - kwargs.length)
                  let t3 := { t2 with stack := s2 }
                  match stackPop t3.stack with
                  | .error e => (recordExc (setTop vm t3) e, .cyc (.brk .exc))
                  | .ok (fv, s3) =>
                    let vm3 := setTop vm { t3 with stack := s3 }
                    match fv with
                    | .vfunc fn => finishCall (exec n vm3 (.call fn posargs kwargs))
                    | _ => (recordExc vm3 (.typeError, "object is not callable"),
                            .cyc (.brk .exc)))
       | nm, _ =>
           if strHasPre "INPLACE_" nm then liftF vm (inplaceOperator (strDrop nm 8) t)
           else if strHasPre "UNARY_" nm then
             -- the source calls self.unaryOperator, a method the class does
             -- not define: AttributeError inside the try
             (recordExc vm (.attributeError,
                "VirtualMachine object has no attribute unaryOperator"),
              .cyc (.brk .exc))
           else if strHasPre "BINARY_" nm then liftF vm (binaryOperator (strDrop nm 7) t)
           else if nm = "<0>" then (vm, .cyc (.brk .eof))
           else (recordExc vm (.virtualMachineError,
                   "unsupported bytecode type " ++ nm), .cyc (.brk .exc)))
  | n + 1, vm, .call fn args kwargs =>
    let params := fn.func_code.co_varnames.take fn.func_code.co_argcount
    (match getcallargs params fn.func_defaults args kwargs with
     | .error e => (vm, .run (.raise ⟨e.1, e.2, none⟩))
     | .ok call_args =>
       match make_frame vm fn.func_code fn.func_closure call_args
           (some fn.func_globals) (some []) with
       | .error e => (vm, .run (.raise ⟨e.1, e.2, none⟩))
       | .ok fr => exec n vm (.runf fr))

/-- run_frame as exposed to callers. -/
def run_frame (fuel : Nat) (vm : VM) (f : Frame) : VM × RunRes :=
  match exec fuel vm (.runf f) with
  | (vm1, .run r) => (vm1, r)
  | (vm1, .cyc _) => (vm1, .fuelOut)

/-- Function.__call__ as exposed to callers. -/
def callFunction (fuel : Nat) (vm : VM) (fn : Func) (args : List Value)
    (kwargs : List (String × Value)) : VM × RunRes :=
  match exec fuel vm (.call fn args kwargs) with
  | (vm1, .run r) => (vm1, r)
  | (vm1, .cyc _) => (vm1, .fuelOut)

/-- One parse+dispatch cycle as exposed to callers. -/
def stepCycle (fuel : Nat) (vm : VM) : VM × CycRes :=
  match exec fuel vm .cycle with
  | (vm1, .cyc c) => (vm1, c)
  | (vm1, .run _) => (vm1, .fuelOut)

/-- dispatch as exposed to callers. -/
def dispatch (fuel : Nat) (vm : VM) (instName : String) (args : List Arg) :
    VM × CycRes :=
  match exec fuel vm (.dis instName args) with
  | (vm1, .cyc c) => (vm1, c)
  | (vm1, .run _) => (vm1, .fuelOut)

/-- `k` dispatch cycles in a row, stopping early when one does not yield the
continue result. -/
def stepCycles (fuel : Nat) : Nat → VM → VM × CycRes
  | 0, vm => (vm, .cont)
  | k + 1, vm =>
      match stepCycle fuel vm with
      | (vm1, .cont) => stepCycles fuel k vm1
      | (vm1, r) => (vm1, r)

/-- VirtualMachine.run_code (source lines 380-382): build the root frame
(with the default scope seeding when none is given) and run it; an exception
raised during frame construction or propagating out of the root frame
reaches the host. -/
def run_code (fuel : Nat) (vm : VM) (code : Code)
    (global_names : Option Dict := none) (local_names : Option Dict := none) :
    VM × RunRes :=
  match make_frame vm code [] [] global_names local_names with
  | .error e => (vm, .raise ⟨e.1, e.2, none⟩)
  | .ok f => run_frame fuel vm f

/-- A fresh engine (VirtualMachine.__init__). -/
def initVM : VM := { frames := [], return_value := .vnone, last_exception := none }

/-! ### Concrete programs and states used by the theorems -/

/-- The `builtins` module reference seeded as `__builtins__`. -/
def bmod : Value := .vmodule builtinsDict

/-- A module-level code object with no instructions, used for root frames of
call-level scenarios. -/
def dummyCode : Code :=
  { co_name := "module", co_argcount := 0, co_varnames := [], co_names := [],
    co_consts := [], co_cellvars := [], co_freevars := [], co_code := [] }

/-- A root frame such as run_code builds for a module body. -/
def rootFrame : Frame :=
  { code_obj := dummyCode, f_globals := [("__builtins__", bmod)],
    f_locals := [("__builtins__", bmod)], builtin_names := builtinsDict,
    cells := [], last_instruction := 0, stack := [] }

/-- An engine mid-execution of the root frame: the state in which Function
calls are dispatched. -/
def vmR : VM :=
  { frames := [rootFrame], return_value := .vnone, last_exception := none }

/- C4: frame a calls b, b calls c, c faults.
   Code bodies (CPython 3.8 wordcode):
     a: LOAD_NAME b; LOAD_CONST (); CALL_FUNCTION_KW 0; RETURN_VALUE
     b: LOAD_NAME c; LOAD_CONST (); CALL_FUNCTION_KW 0; RETURN_VALUE
     c: LOAD_NAME boom (undefined -> NameError); LOAD_CONST 99; RETURN_VALUE
   The zero-argument calls use CALL_FUNCTION_KW with an empty name tuple,
   the only call instruction of this engine that passes zero arguments. -/

def codeC4c : Code :=
  { co_name := "c", co_argcount := 0, co_varnames := [], co_names := ["boom"],
    co_consts := [.vint 99], co_cellvars := [], co_freevars := [],
    co_code := [101, 0, 100, 0, 83, 0] }

def globalsC4c : Dict := [("__builtins__", bmod)]

def funcC4c : Func :=
  { func_name := .vstr "c", func_code := codeC4c, func_defaults := [],
    func_closure := [], func_globals := globalsC4c }

def codeC4b : Code :=
  { co_name := "b", co_argcount := 0, co_varnames := [], co_names := ["c"],
    co_consts := [.vtuple []], co_cellvars := [], co_freevars := [],
    co_code := [101, 0, 100, 0, 141, 0, 83, 0] }

def globalsC4b : Dict := [("__builtins__", bmod), ("c", .vfunc funcC4c)]

def funcC4b : Func :=
  { func_name := .vstr "b", func_code := codeC4b, func_defaults := [],
    func_closure := [], func_globals := globalsC4b }

def codeC4a : Code :=
  { co_name := "a", co_argcount := 0, co_varnames := [], co_names := ["b"],
    co_consts := [.vtuple []], co_cellvars := [], co_freevars := [],
    co_code := [101, 0, 100, 0, 141, 0, 83, 0] }

def globalsC4a : Dict := [("__builtins__", bmod), ("b", .vfunc funcC4b)]

/-- Frame a at the moment its CALL_FUNCTION_KW handler invokes b: the name
tuple, the function and the (zero) positional arguments already popped, the
program counter past the call instruction. -/
def frameC4a : Frame :=
  { code_obj := codeC4a, f_globals := globalsC4a, f_locals := globalsC4a,
    builtin_names := builtinsDict, cells := [], last_instruction := 6,
    stack := [] }

def vmC4a : VM :=
  { frames := [frameC4a], return_value := .vnone, last_exception := none }

/-- The terminal outcome of running the three-frame program. -/
def c4result : RunRes := (run_code 100 initVM codeC4a (some globalsC4a)).2

/-- The traceback slot of the condition the program terminates with:
`some tb` when the run raised a condition, `none` when it did not. -/
def c4tb : Option (Option (List (String × Nat))) :=
  match c4result with
  | .raise e => some e.traceback
  | _ => none

/- C1: the closure-counter program.
     def outer():
         count = 0
         def inner():
             nonlocal count
             count += 1
             return count
         return inner
   CPython 3.8 compiles outer with co_cellvars = ('count',) and body
     LOAD_CONST 0; STORE_DEREF count; LOAD_CLOSURE count; BUILD_TUPLE 1;
     LOAD_CONST code(inner); LOAD_CONST "inner"; MAKE_FUNCTION 8;
     RETURN_VALUE  — wait, the function is stored then loaded; the exact
   tail does not matter because the engine faults before the first
   instruction of outer executes: Frame.__init__ reads
   local_names['count'] for the declared cell variable, and no such local
   exists. -/

def codeC1inner : Code :=
  { co_name := "inner", co_argcount := 0, co_varnames := [], co_names := [],
    co_consts := [.vint 1], co_cellvars := [], co_freevars := ["count"],
    co_code := [136, 0, 100, 0, 55, 0, 137, 0, 136, 0, 83, 0] }

def codeC1outer : Code :=
  { co_name := "outer", co_argcount := 0, co_varnames := [], co_names := [],
    co_consts := [.vint 0, .vcode codeC1inner, .vstr "inner"],
    co_cellvars := ["count"], co_freevars := [],
    co_code := [100, 0, 137, 0, 135, 0, 102, 1, 100, 1, 100, 2, 132, 8, 83, 0] }

def funcC1outer : Func :=
  { func_name := .vstr "outer", func_code := codeC1outer, func_defaults := [],
    func_closure := [], func_globals := [("__builtins__", bmod)] }

/- C6: argument binding scenarios. -/

/-- A function of two required parameters. -/
def funcC6two : Func :=
  { func_name := .vstr "f2",
    func_code :=
      { co_name := "f2", co_argcount := 2, co_varnames := ["x", "y"],
        co_names := [], co_consts := [], co_cellvars := [], co_freevars := [],
        co_code := [83, 0] },
    func_defaults := [], func_closure := [],
    func_globals := [("__builtins__", bmod)] }

/-- A function of three parameters whose third has default 42; its body
returns the third parameter (LOAD_FAST z; RETURN_VALUE). -/
def funcC6three : Func :=
  { func_name := .vstr "f3",
    func_code :=
      { co_name := "f3", co_argcount := 3, co_varnames := ["x", "y", "z"],
        co_names := [], co_consts := [], co_cellvars := [], co_freevars := [],
        co_code := [124, 2, 83, 0] },
    func_defaults := [.vint 42], func_closure := [],
    func_globals := [("__builtins__", bmod)] }

/- C7: iterate a 3-element list.
     0 LOAD_CONST [1,2,3]; 2 GET_ITER; 4 FOR_ITER (target 10);
     6 POP_TOP; 8 JUMP_ABSOLUTE 4; 10 LOAD_CONST None; 12 RETURN_VALUE
   The FOR_ITER operand byte is 4: the decoder turns it into 5 + 4 = 9 and
   the handler jumps to 9 + 1 = 10 on exhaustion — the instruction after
   the loop body. -/

def codeC7 : Code :=
  { co_name := "it", co_argcount := 0, co_varnames := [], co_names := [],
    co_consts := [.vlist [.vint 1, .vint 2, .vint 3], .vnone],
    co_cellvars := [], co_freevars := [],
    co_code := [100, 0, 68, 0, 93, 4, 1, 0, 113, 4, 100, 1, 83, 0] }

def frameC7 : Frame :=
  { code_obj := codeC7, f_globals := [("__builtins__", bmod)],
    f_locals := [("__builtins__", bmod)], builtin_names := builtinsDict,
    cells := [], last_instruction := 0, stack := [] }

/-- The engine state after `k` dispatch cycles of the iteration program. -/
def c7after (k : Nat) : VM := (stepCycles 50 k (push_frame initVM frameC7)).1

/-- Operand stack of the active frame after `k` cycles. -/
def c7stack (k : Nat) : Option (List Value) := (c7after k).frame.map Frame.stack

/-- Program counter of the active frame after `k` cycles. -/
def c7pc (k : Nat) : Option Nat := (c7after k).frame.map Frame.last_instruction

/- C5: MAKE_FUNCTION with both a defaults tuple and a closure tuple on the
stack and the CPython flags value 0x09 (defaults | closure). -/

def codeC5 : Code :=
  { co_name := "g", co_argcount := 1, co_varnames := ["x"], co_names := [],
    co_consts := [], co_cellvars := [], co_freevars := [],
    co_code := [83, 0] }

def frameC5 : Frame :=
  { code_obj := dummyCode, f_globals := [("__builtins__", bmod)],
    f_locals := [("__builtins__", bmod)], builtin_names := builtinsDict,
    cells := [], last_instruction := 8,
    stack := [.vtuple [.vint 7], .vtuple [], .vcode codeC5, .vstr "g"] }

def vmC5 : VM :=
  { frames := [frameC5], return_value := .vnone, last_exception := none }

/-- What flags = 0x09 actually builds: the closure tuple is popped as if it
were the defaults tuple (and, being empty, yields no defaults); no cells are
captured; the true defaults tuple stays on the stack. -/
def c5fn : Func :=
  { func_name := .vstr "g", func_code := codeC5, func_defaults := [],
    func_closure := [], func_globals := frameC5.f_globals }

/-- A frame whose three scopes all bind "x", locals and globals bind against
each other, and only builtins binds "b": locals x=1; globals x=2, g=2;
builtins x=3, g=3, b=3. -/
def wFrameC2 : Frame :=
  { code_obj := dummyCode,
    f_globals := [("x", .vint 2), ("g", .vint 2)],
    f_locals := [("x", .vint 1)],
    builtin_names := [("x", .vint 3), ("g", .vint 3), ("b", .vint 3)],
    cells := [], last_instruction := 0, stack := [] }

/-- A frame whose operand stack holds exactly one value. -/
def frameUnder : Frame := { rootFrame with stack := [.vint 1] }

def vmUnder : VM :=
  { frames := [frameUnder], return_value := .vnone, last_exception := none }

/-- An engine whose call stack is already 1000 frames deep. -/
def deepVM : VM :=
  { frames := List.replicate 1000 rootFrame, return_value := .vnone,
    last_exception := none }

/-- A code object with two free variables, for the cells-by-declaration-order
instance. -/
def codeFV : Code :=
  { co_name := "fv", co_argcount := 0, co_varnames := [], co_names := [],
    co_consts := [], co_cellvars := [], co_freevars := ["cu", "cv"],
    co_code := [83, 0] }

/-! ## Theorems -/

/-- Helper: popping from a stack with top `v` yields `v` and the rest. -/
theorem stackPop_concat (s : List Value) (v : Value) :
    stackPop (s ++ [v]) = .ok (v, s) := by
  simp [stackPop]

/-- Helper: a list of length 1 is a singleton. -/
theorem length_one_singleton {α : Type} {l : List α} (h : l.length = 1) :
    ∃ x, l = [x] := List.length_eq_one.mp h

/-- C10: for every operand stack and every list of values, pushing the
values in order and then popping exactly that many returns them in the same
order and restores the stack; popping zero returns the empty list and leaves
the stack unchanged. -/
theorem stack_push_popn_roundtrip :
    ∀ (stack vs : List Value),
      stackPopn (stackPush stack vs) vs.length = (vs, stack) ∧
      stackPopn stack 0 = ([], stack) := by
  intro stack vs
  refine ⟨?_, by simp [stackPopn]⟩
  cases vs with
  | nil => simp [stackPush, stackPopn]
  | cons v vs =>
      simp only [stackPush, stackPopn, List.length_cons]
      rw [if_neg (Nat.succ_ne_zero _)]
      rw [List.length_append, List.length_cons, Nat.add_sub_cancel]
      rw [List.drop_left, List.take_left]

/-- C8 (amended): push_frame appends the new frame unconditionally — the
engine performs no depth check and can raise no StackOverflow there; the
fault slot and the return register are untouched. -/
theorem push_frame_appends_unconditionally :
    ∀ (vm : VM) (f : Frame),
      (push_frame vm f).frames = vm.frames ++ [f] ∧
      (push_frame vm f).last_exception = vm.last_exception ∧
      (push_frame vm f).return_value = vm.return_value :=
  fun _ _ => ⟨rfl, rfl, rfl⟩

/-- C8 (counterexample): pushing onto a call stack already 1000 frames deep
succeeds silently — the engine raises no StackOverflow (nor any other
condition) at any configured depth, because push_frame has no bound. -/
theorem push_frame_depth_1000_no_fault :
    (push_frame deepVM rootFrame).frames.length = 1001 ∧
    (push_frame deepVM rootFrame).last_exception = none := by
  refine ⟨?_, rfl⟩
  show (deepVM.frames ++ [rootFrame]).length = 1001
  rw [List.length_append,
      show deepVM.frames = List.replicate 1000 rootFrame from rfl,
      List.length_replicate, List.length_singleton]

/-- C2: a generic name load resolves against the active frame's locals
first, then its globals, then the builtin namespace; a name absent from all
three raises NameError (the spec's UndefinedName). -/
theorem load_name_resolution_order :
    (∀ (f : Frame) (name : String) (v : Value),
        dlookup f.f_locals name = some v →
        inst_LOAD_NAME f name = .ok { f with stack := stackPush f.stack [v] }) ∧
    (∀ (f : Frame) (name : String) (v : Value),
        dlookup f.f_locals name = none →
        dlookup f.f_globals name = some v →
        inst_LOAD_NAME f name = .ok { f with stack := stackPush f.stack [v] }) ∧
    (∀ (f : Frame) (name : String) (v : Value),
        dlookup f.f_locals name = none →
        dlookup f.f_globals name = none →
        dlookup f.builtin_names name = some v →
        inst_LOAD_NAME f name = .ok { f with stack := stackPush f.stack [v] }) ∧
    (∀ (f : Frame) (name : String),
        dlookup f.f_locals name = none →
        dlookup f.f_globals name = none →
        dlookup f.builtin_names name = none →
        inst_LOAD_NAME f name =
          .error (.nameError, "name " ++ name ++ " is not defined")) := by
  refine ⟨?_, ?_, ?_, ?_⟩
  · intro f name v h; simp [inst_LOAD_NAME, h]
  · intro f name v h1 h2; simp [inst_LOAD_NAME, h1, h2]
  · intro f name v h1 h2 h3; simp [inst_LOAD_NAME, h1, h2, h3]
  · intro f name h1 h2 h3; simp [inst_LOAD_NAME, h1, h2, h3]

/-- Witness for C2 at a frame binding "x" in all three scopes, "g" in
globals and builtins, "b" only in builtins, and "z" nowhere. -/
theorem load_name_resolution_order_witness :
    inst_LOAD_NAME wFrameC2 "x" =
      .ok { wFrameC2 with stack := stackPush wFrameC2.stack [.vint 1] } ∧
    inst_LOAD_NAME wFrameC2 "g" =
      .ok { wFrameC2 with stack := stackPush wFrameC2.stack [.vint 2] } ∧
    inst_LOAD_NAME wFrameC2 "b" =
      .ok { wFrameC2 with stack := stackPush wFrameC2.stack [.vint 3] } ∧
    inst_LOAD_NAME wFrameC2 "z" =
      .error (.nameError, "name " ++ "z" ++ " is not defined") :=
  ⟨load_name_resolution_order.1 wFrameC2 "x" (.vint 1) rfl,
   load_name_resolution_order.2.1 wFrameC2 "g" (.vint 2) rfl rfl,
   load_name_resolution_order.2.2.1 wFrameC2 "b" (.vint 3) rfl rfl rfl,
   load_name_resolution_order.2.2.2 wFrameC2 "z" rfl rfl rfl⟩

/-- C3: executing a binary-operator instruction against an operand stack
holding only one value faults: the popn slice hands the single value to the
tuple unpacking, which raises ValueError — before the operator table is even
consulted — so the dispatcher records a ValueError condition.  That
condition is distinct from an OperatorError, the TypeError a binary
primitive raises on incompatible operands (exhibited for ADD on an int and
a string); the concrete dispatch of BINARY_ADD on a one-value stack shows
the dispatcher yielding the exception signal with the ValueError
recorded. -/
theorem binary_underflow_distinct_fault :
    (∀ (op : String) (f : Frame), f.stack.length = 1 →
        binaryOperator op f =
          .error (.valueError, "not enough values to unpack")) ∧
    (dispatch 5 vmUnder "BINARY_ADD" [] =
      (recordExc vmUnder (.valueError, "not enough values to unpack"),
       .brk .exc)) ∧
    ExcKind.valueError ≠ ExcKind.typeError ∧
    applyBinary "ADD" (.vint 1) (.vstr "s") =
      .error (.typeError, "unsupported operand kinds") := by
  refine ⟨?_, rfl, by decide, rfl⟩
  intro op f h
  obtain ⟨x, hx⟩ := length_one_singleton h
  simp [binaryOperator, stackPopn, hx]

/-- Witness for C3's universally quantified part, at a concrete frame whose
stack holds exactly one value. -/
theorem binary_underflow_distinct_fault_witness :
    binaryOperator "ADD" frameUnder =
      .error (.valueError, "not enough values to unpack") :=
  binary_underflow_distinct_fault.1 "ADD" frameUnder rfl

/-- C1 (the code against the claimed behaviour): invoking the closure
counter's outer function faults before its first instruction runs —
Frame.__init__ binds each declared cell variable by reading
`local_names[name]`, and "count" is not among the call-built locals, so the
call raises KeyError("count"); the claimed 0-then-1 counter behaviour never
happens.  Independently, the STORE_DEREF instruction the counter's body
needs has no handler at all: dispatching it records the unsupported-bytecode
VirtualMachineError. -/
theorem closure_counter_faults_at_frame_setup :
    callFunction 50 vmR funcC1outer [] [] =
      (vmR, .raise ⟨.keyError, "count", none⟩) ∧
    (dispatch 5 vmR "STORE_DEREF" [.anum 0]).1.last_exception =
      some ⟨.virtualMachineError, "unsupported bytecode type STORE_DEREF", none⟩ ∧
    (dispatch 5 vmR "STORE_DEREF" [.anum 0]).2 = .brk .exc :=
  ⟨rfl, rfl, rfl⟩

/-- C6: invoking a 2-required-parameter Callable with one positional
argument propagates the binding TypeError (the spec's CallError); an
unexpected keyword name does the same; invoking a Callable whose third
parameter defaults to 42 with only two positionals succeeds and the body
returning that parameter yields 42. -/
theorem argument_binding_scenarios :
    (callFunction 50 vmR funcC6two [.vint 1] []).2 =
      .raise ⟨.typeError, "missing a required argument", none⟩ ∧
    (callFunction 50 vmR funcC6two [.vint 1, .vint 2] [("q", .vint 3)]).2 =
      .raise ⟨.typeError, "got an unexpected keyword argument", none⟩ ∧
    (callFunction 50 vmR funcC6three [.vint 1, .vint 2] []).2 =
      .ret (.vint 42) :=
  ⟨rfl, rfl, rfl⟩

/-- C7: iterating the 3-element list [1,2,3]: after GET_ITER the stack holds
the iterator; the first, second and third FOR_ITER cycles (overall cycles 3,
6 and 9) push 1, 2 and 3 in order above the advancing iterator; the fourth
FOR_ITER cycle (overall cycle 12) pushes nothing, pops the exhausted
iterator and sets the program counter to 10 — past the loop body — after
which the program returns None. -/
theorem iteration_three_pushes_then_jump :
    c7stack 2 = some [.viter [.vint 1, .vint 2, .vint 3]] ∧
    c7stack 3 = some [.viter [.vint 2, .vint 3], .vint 1] ∧ c7pc 3 = some 6 ∧
    c7stack 6 = some [.viter [.vint 3], .vint 2] ∧ c7pc 6 = some 6 ∧
    c7stack 9 = some [.viter [], .vint 3] ∧ c7pc 9 = some 6 ∧
    c7stack 11 = some [.viter []] ∧ c7pc 11 = some 4 ∧
    c7stack 12 = some [] ∧ c7pc 12 = some 10 ∧
    (run_frame 100 initVM frameC7).2 = .ret .vnone :=
  ⟨rfl, rfl, rfl, rfl, rfl, rfl, rfl, rfl, rfl, rfl, rfl, rfl⟩

/-- C4 (amended): frame a's call of b returns exactly one raised condition,
carrying c's fault kind and message with the traceback slot None, and at the
moment a observes it the call stack again holds only a's frame — b's and c's
frames were popped during the unwind; the whole program terminates with that
same condition and an empty call stack. -/
theorem unwind_single_condition_frames_popped :
    (callFunction 80 vmC4a funcC4b [] []).1.frames = vmC4a.frames ∧
    (callFunction 80 vmC4a funcC4b [] []).2 =
      .raise ⟨.nameError, "name boom is not defined", none⟩ ∧
    (run_code 100 initVM codeC4a (some globalsC4a)).2 =
      .raise ⟨.nameError, "name boom is not defined", none⟩ ∧
    (run_code 100 initVM codeC4a (some globalsC4a)).1.frames = [] :=
  ⟨rfl, rfl, rfl, rfl⟩

/-- C4 (counterexample): the condition frame a observes carries NO
traceback chain at all — the dispatcher stores None in the traceback slot on
every catch (`sys.exc_info()[:2] + (None,)`), so the chain "c, then b, then
a" the claim requires does not exist. -/
theorem unwind_traceback_chain_missing :
    c4tb = some none ∧
    c4tb ≠ some (some [("c", 2), ("b", 6), ("a", 6)]) := by
  have h : c4tb = some none := rfl
  exact ⟨h, by rw [h]; simp⟩

/-- C9: building the root frame with no global scope supplied (the run_code
path on a fresh engine) seeds a scope with exactly the four minimal
bindings — the builtins-module reference, the module name "__main__", an
absent doc value and an absent package value — and uses that same mapping
as both the frame's globals and its locals. -/
theorem default_scope_seeding :
    ∀ (code : Code), code.co_cellvars = [] → code.co_freevars = [] →
      make_frame initVM code = .ok
        { code_obj := code,
          f_globals := [("__builtins__", Value.vmodule builtinsDict),
                        ("__name__", Value.vstr "__main__"),
                        ("__doc__", Value.vnone),
                        ("__package__", Value.vnone)],
          f_locals := [("__builtins__", Value.vmodule builtinsDict),
                       ("__name__", Value.vstr "__main__"),
                       ("__doc__", Value.vnone),
                       ("__package__", Value.vnone)],
          builtin_names := builtinsDict, cells := [],
          last_instruction := 0, stack := [] } := by
  intro code h1 h2
  simp [make_frame, initVM, mkFrame, defaultGlobals, dupdate, dlookup,
    h1, h2, VM.frame]
  rfl

/-- Witness for C9 at a concrete module code object. -/
theorem default_scope_seeding_witness :
    make_frame initVM dummyCode = .ok
      { code_obj := dummyCode,
        f_globals := [("__builtins__", Value.vmodule builtinsDict),
                      ("__name__", Value.vstr "__main__"),
                      ("__doc__", Value.vnone),
                      ("__package__", Value.vnone)],
        f_locals := [("__builtins__", Value.vmodule builtinsDict),
                     ("__name__", Value.vstr "__main__"),
                     ("__doc__", Value.vnone),
                     ("__package__", Value.vnone)],
        builtin_names := builtinsDict, cells := [],
        last_instruction := 0, stack := [] } :=
  default_scope_seeding dummyCode rfl rfl

/-- C5 (counterexample): MAKE_FUNCTION with flags 0x09 — CPython's encoding
for "defaults AND closure on the stack" — and a stack holding the defaults
tuple (7,), the closure tuple, a code object and the name: the handler
consumes only ONE extra value (the closure tuple, misread as the defaults),
so the pushed function binds neither the defaults nor any cells, and the
true defaults tuple is left behind on the operand stack (two values remain
instead of one). -/
theorem make_function_flags9_not_both :
    inst_MAKE_FUNCTION vmC5 frameC5 9 =
      (setTop vmC5 { frameC5 with stack := [.vtuple [.vint 7], .vfunc c5fn] },
       .cyc .cont) ∧
    c5fn.func_defaults = [] ∧ c5fn.func_closure = [] ∧
    (inst_MAKE_FUNCTION vmC5 frameC5 9).1.frame.map (fun f => f.stack.length) =
      some 2 :=
  ⟨rfl, rfl, rfl, rfl⟩

/-- C5 (amended): MAKE_FUNCTION consumes a code object and a display name
from the stack and then, by its flags operand, EXACTLY ONE of: nothing
(flags 0), a tuple of captured cells (flags 0x08), or a tuple of default
values (any other non-zero flags) — never both; the pushed Callable binds
the code object, the snapshotted defaults, the captured cells matched to
free-variable declaration order (third part, on a two-free-variable code
object), and the defining frame's global scope. -/
theorem make_function_consumption :
    (∀ (vm : VM) (t : Frame) (rest : List Value) (nameV : Value) (c : Code),
        t.stack = rest ++ [.vcode c, nameV] → c.co_freevars = [] →
        inst_MAKE_FUNCTION vm t 0 =
          (setTop vm { t with stack := rest ++
              [.vfunc { func_name := if pyTruthy nameV then nameV
                                     else .vstr c.co_name,
                        func_code := c, func_defaults := [],
                        func_closure := [],
                        func_globals := t.f_globals }] }, .cyc .cont)) ∧
    (∀ (vm : VM) (t : Frame) (rest : List Value) (nameV clo : Value)
        (c : Code) (fn : Func),
        t.stack = rest ++ [clo, .vcode c, nameV] →
        Func.init nameV c (.vlist []) (some clo) t.f_globals = .ok fn →
        inst_MAKE_FUNCTION vm t 8 =
          (setTop vm { t with stack := rest ++ [.vfunc fn] }, .cyc .cont)) ∧
    (∀ (g : Dict) (u v : Value),
        Func.init (.vstr "f") codeFV (.vlist []) (some (.vtuple [u, v])) g =
          .ok { func_name := .vstr "f", func_code := codeFV,
                func_defaults := [], func_closure := [("cu", u), ("cv", v)],
                func_globals := g }) ∧
    (∀ (vm : VM) (t : Frame) (rest : List Value) (nameV defsV : Value)
        (c : Code) (ds : List Value) (flags : Nat),
        flags ≠ 0 → flags ≠ 8 →
        t.stack = rest ++ [defsV, .vcode c, nameV] →
        pyToList defsV = .ok ds → c.co_freevars = [] →
        inst_MAKE_FUNCTION vm t flags =
          (setTop vm { t with stack := rest ++
              [.vfunc { func_name := if pyTruthy nameV then nameV
                                     else .vstr c.co_name,
                        func_code := c, func_defaults := ds,
                        func_closure := [],
                        func_globals := t.f_globals }] }, .cyc .cont)) := by
  refine ⟨?_, ?_, ?_, ?_⟩
  · intro vm t rest nameV c hs hfv
    have hs2 : t.stack = (rest ++ [Value.vcode c]) ++ [nameV] := by
      rw [hs]; simp
    simp only [inst_MAKE_FUNCTION, hs2, stackPop_concat]
    simp [Func.init, pyToList, hfv, stackPush]
  · intro vm t rest nameV clo c fn hs hinit
    have hs2 : t.stack = (((rest ++ [clo]) ++ [Value.vcode c]) ++ [nameV]) := by
      rw [hs]; simp
    simp only [inst_MAKE_FUNCTION, hs2, stackPop_concat]
    simp [hinit, stackPush]
  · intro g u v
    rfl
  · intro vm t rest nameV defsV c ds flags h0 h8 hs hds hfv
    have hs2 : t.stack = (((rest ++ [defsV]) ++ [Value.vcode c]) ++ [nameV]) := by
      rw [hs]; simp
    simp only [inst_MAKE_FUNCTION, hs2, stackPop_concat]
    simp [h0, h8, Func.init, hds, hfv, stackPush]

/-- Witness for C5's amended theorem: the three flag shapes at concrete
inputs (flags 0 with just code and name; flags 0x08 with a two-cell closure
tuple for the two-free-variable code object; flags 2 with a defaults
tuple). -/
theorem make_function_consumption_witness :
    inst_MAKE_FUNCTION vmC5 { frameC5 with stack := [.vcode codeC5, .vstr "g"] } 0 =
      (setTop vmC5 { frameC5 with stack :=
          [.vfunc { func_name := .vstr "g", func_code := codeC5,
                    func_defaults := [], func_closure := [],
                    func_globals := frameC5.f_globals }] }, .cyc .cont) ∧
    inst_MAKE_FUNCTION vmC5
        { frameC5 with stack :=
            [.vtuple [.vint 5, .vint 6], .vcode codeFV, .vstr "f"] } 8 =
      (setTop vmC5 { frameC5 with stack :=
          [.vfunc { func_name := .vstr "f", func_code := codeFV,
                    func_defaults := [],
                    func_closure := [("cu", .vint 5), ("cv", .vint 6)],
                    func_globals := frameC5.f_globals }] }, .cyc .cont) ∧
    Func.init (.vstr "f") codeFV (.vlist []) (some (.vtuple [.vint 5, .vint 6]))
        frameC5.f_globals =
      .ok { func_name := .vstr "f", func_code := codeFV, func_defaults := [],
            func_closure := [("cu", .vint 5), ("cv", .vint 6)],
            func_globals := frameC5.f_globals } ∧
    inst_MAKE_FUNCTION vmC5
        { frameC5 with stack := [.vtuple [.vint 9], .vcode codeC5, .vstr "g"] } 2 =
      (setTop vmC5 { frameC5 with stack :=
          [.vfunc { func_name := .vstr "g", func_code := codeC5,
                    func_defaults := [.vint 9], func_closure := [],
                    func_globals := frameC5.f_globals }] }, .cyc .cont) :=
  ⟨make_function_consumption.1 vmC5
      { frameC5 with stack := [.vcode codeC5, .vstr "g"] } [] (.vstr "g") codeC5
      rfl rfl,
   make_function_consumption.2.1 vmC5
      { frameC5 with stack :=
          [.vtuple [.vint 5, .vint 6], .vcode codeFV, .vstr "f"] } []
      (.vstr "f") (.vtuple [.vint 5, .vint 6]) codeFV
      { func_name := .vstr "f", func_code := codeFV, func_defaults := [],
        func_closure := [("cu", .vint 5), ("cv", .vint 6)],
        func_globals := frameC5.f_globals } rfl rfl,
   make_function_consumption.2.2.1 frameC5.f_globals (.vint 5) (.vint 6),
   make_function_consumption.2.2.2 vmC5
      { frameC5 with stack := [.vtuple [.vint 9], .vcode codeC5, .vstr "g"] } []
      (.vstr "g") (.vtuple [.vint 9]) codeC5 [.vint 9] 2
      (by decide) (by decide) rfl rfl rfl⟩

end PyVM
